import Mathlib

/-!
Shallow embedding of the gvret-canet-rs gateway's protocol codec
(src/usr_canet.rs and src/gvret.rs).

Machine integers are modelled as `Nat` with explicit `% 2^w` where the Rust
code can wrap; byte buffers are `List Nat`; fallible Rust code (`Result`,
`Option`) becomes `Except` / `Option`, and a Rust panic (assert failure,
`todo!()`, `unreachable!()`, slice-bound violation) is modelled as `none`.
Asynchronous socket reads are factored out: each decoder is embedded as the
pure function of the bytes it reads.
-/

namespace GvretCanet

/-- Maximum value for CAN ID if extended 29-bit ID is selected (usr_canet.rs). -/
def CAN_EXT_ID_MASK : Nat := 0x1FFFFFFF

/-- Maximum value for CAN ID if standard 11-bit ID is selected (usr_canet.rs). -/
def CAN_STD_ID_MASK : Nat := 0x7FF

/-- Maximum data length or dlc in a CAN message (usr_canet.rs). -/
def CAN_MAX_DLC : Nat := 8

/-- Errors from creating/validating CAN message fields (usr_canet.rs `CanFrameError`). -/
inductive CanFrameError
  | IdTooLong
  | DataTooLong
deriving DecidableEq, Repr

/-- `CanFrameError::validate_id` from usr_canet.rs. -/
def CanFrameError.validate_id (id : Nat) (ext_id : Bool) : Except CanFrameError Unit :=
  if ext_id then
    if id > CAN_EXT_ID_MASK then .error .IdTooLong else .ok ()
  else if id > CAN_STD_ID_MASK then .error .IdTooLong
  else .ok ()

/-- A CAN data frame (usr_canet.rs `DataFrame` / `base::DataFrame`).
Bytes are `Nat` values; a well-formed frame holds bytes `< 256`. -/
structure DataFrame where
  id : Nat
  ext_id : Bool
  data : List Nat
deriving DecidableEq, Repr

/-- `DataFrame::new` from usr_canet.rs. -/
def DataFrame.new (id : Nat) (ext_id : Bool) (data : List Nat) :
    Except CanFrameError DataFrame :=
  match CanFrameError.validate_id id ext_id with
  | .error e => .error e
  | .ok _ =>
    if data.length > CAN_MAX_DLC then .error .DataTooLong
    else .ok ⟨id, ext_id, data⟩

/-- `DataFrame::dlc`: `self.0.data.len() as u8` (wraps at 256). -/
def DataFrame.dlc (f : DataFrame) : Nat := f.data.length % 256

/-- A CAN remote frame (usr_canet.rs `RemoteFrame` / `base::RemoteFrame`). -/
structure RemoteFrame where
  id : Nat
  ext_id : Bool
  dlc : Nat
deriving DecidableEq, Repr

/-- `RemoteFrame::new` from usr_canet.rs. -/
def RemoteFrame.new (id : Nat) (ext_id : Bool) (dlc : Nat) :
    Except CanFrameError RemoteFrame :=
  match CanFrameError.validate_id id ext_id with
  | .error e => .error e
  | .ok _ =>
    if dlc > CAN_MAX_DLC then .error .DataTooLong
    else .ok ⟨id, ext_id, dlc⟩

/-- A message on the CAN bus (usr_canet.rs `Message`): bus index plus frame. -/
inductive Message
  | Data (bus : Nat) (frame : DataFrame)
  | Remote (bus : Nat) (frame : RemoteFrame)
deriving DecidableEq, Repr

/-- `Message::new_data` from usr_canet.rs (constructs the base frame directly). -/
def Message.new_data (bus : Nat) (id : Nat) (ext_id : Bool) (data : List Nat) :
    Except CanFrameError Message :=
  match CanFrameError.validate_id id ext_id with
  | .error e => .error e
  | .ok _ =>
    if data.length > CAN_MAX_DLC then .error .DataTooLong
    else .ok (.Data bus ⟨id, ext_id, data⟩)

/-- `Message::new_remote` from usr_canet.rs (validates, then calls `RemoteFrame::new`). -/
def Message.new_remote (bus : Nat) (id : Nat) (ext_id : Bool) (dlc : Nat) :
    Except CanFrameError Message :=
  match CanFrameError.validate_id id ext_id with
  | .error e => .error e
  | .ok _ =>
    if dlc > CAN_MAX_DLC then .error .DataTooLong
    else
      match RemoteFrame.new id ext_id dlc with
      | .error e => .error e
      | .ok f => .ok (.Remote bus f)

/-- `Message::data` accessor. -/
def Message.data : Message → Option (List Nat)
  | .Data _ f => some f.data
  | .Remote _ _ => none

/-- `Message::bus` accessor. -/
def Message.bus : Message → Nat
  | .Data b _ => b
  | .Remote b _ => b

/-- `Message::id` accessor. -/
def Message.id : Message → Nat
  | .Data _ f => f.id
  | .Remote _ f => f.id

/-- `Message::ext_id` accessor. -/
def Message.ext_id : Message → Bool
  | .Data _ f => f.ext_id
  | .Remote _ f => f.ext_id

/-- `Message::dlc` accessor (data frames report `data.len() as u8`). -/
def Message.dlc : Message → Nat
  | .Data _ f => f.dlc
  | .Remote _ f => f.dlc

/-- `Except.isOk`-style discriminator used in statements. -/
def exceptIsOk {ε α : Type} : Except ε α → Bool
  | .ok _ => true
  | .error _ => false

/-- The 13-byte adapter wire message, tagged by destination connection
(usr_canet.rs `CanetMsg`). -/
inductive CanetMsg
  | Can1 (buf : List Nat)
  | Can2 (buf : List Nat)
deriving DecidableEq, Repr

/-- The buffer carried by a `CanetMsg`. -/
def CanetMsg.buffer : CanetMsg → List Nat
  | .Can1 b => b
  | .Can2 b => b

/-- `BigEndian::write_u32`: the four big-endian bytes of a 32-bit value. -/
def be4 (x : Nat) : List Nat :=
  [x / 16777216 % 256, x / 65536 % 256, x / 256 % 256, x % 256]

/-- Little-endian byte order, `u32::to_le_bytes`. -/
def le4 (x : Nat) : List Nat :=
  [x % 256, x / 256 % 256, x / 65536 % 256, x / 16777216 % 256]

/-- The `bus.max(1)` routing match at the end of `convert_to_canet`
(usr_canet.rs): arms `0 => Can1`, `1 => Can2`, `_ => unreachable!()`.
`none` models the `unreachable!()` panic. -/
def routeBuf (bus : Nat) (buf : List Nat) : Option CanetMsg :=
  match Nat.max bus 1 with
  | 0 => some (.Can1 buf)
  | 1 => some (.Can2 buf)
  | _ => none

/-- `convert_to_canet` from usr_canet.rs. Byte 0 packs the extended-ID flag
(0x80), the remote flag (0x40) and `dlc & 0xF`; bytes 1-4 are the big-endian
identifier; bytes 5-12 are the payload zero-padded to 8 bytes. `none` models
a panic: the `copy_from_slice` into `buf[5..5+dlc]` panics whenever the data
length is not at most 8, and the routing match panics on `bus >= 2`. -/
def convert_to_canet (msg : Message) : Option CanetMsg :=
  let b0 := (if msg.ext_id then 128 else 0) ||| (msg.dlc &&& 15)
  match msg with
  | .Data bus f =>
    if f.data.length ≤ 8 then
      routeBuf bus (b0 :: (be4 f.id ++ (f.data ++ List.replicate (8 - f.data.length) 0)))
    else none
  | .Remote bus f =>
    routeBuf bus ((b0 ||| 64) :: (be4 f.id ++ List.replicate 8 0))

/-- The pure part of `decode_canet_frame` (usr_canet.rs): the 13 bytes have
been read into `buf`; the bus index is supplied by the caller. The outer
`Option` models panic-freeness: in the data branch the Rust slice
`&buf[5..5 + dlc]` of the 13-byte array is bounds-checked, so a DLC nibble
above 8 (bound `5 + dlc > 13`) panics — the outer `none`. Otherwise the
inner value is the function's own `Option<Message>` result, `.ok()` on the
constructors yielding `none` on a construction error. -/
def decode_canet_frame (buf : List Nat) (bus : Nat) : Option (Option Message) :=
  let b0 := buf.getD 0 0
  let ext_id : Bool := (b0 &&& 128) != 0
  let id := buf.getD 1 0 * 16777216 + buf.getD 2 0 * 65536 + buf.getD 3 0 * 256 + buf.getD 4 0
  let dlc := b0 &&& 15
  if (b0 &&& 64) != 0 then
    some (match Message.new_remote bus id ext_id dlc with
      | .ok m => some m
      | .error _ => none)
  else
    if 5 + dlc ≤ 13 then
      some (match Message.new_data bus id ext_id ((buf.drop 5).take dlc) with
        | .ok m => some m
        | .error _ => none)
    else none

/-- The wire buffer produced by `convert_to_canet`, with a default for the
panicking case. -/
def canetBuf (m : Message) : List Nat :=
  match convert_to_canet m with
  | some c => c.buffer
  | none => []

/-- `convert_to_gvret` from gvret.rs. The timestamp argument stands for
`now.elapsed().as_micros() as u32` (truncation to 32 bits happens in `le4`). -/
def convert_to_gvret (message : Message) (elapsedMicros : Nat) : Option (List Nat) :=
  match message.data with
  | none => none
  | some d =>
    if message.dlc > 8 then none
    else
      let id := if message.ext_id then message.id ||| 2 ^ 31 else message.id
      some ([0xf1, 0x0] ++ le4 elapsedMicros ++ le4 id ++
        [((message.bus * 16) % 256) ||| (message.dlc &&& 15)] ++ d ++ [0])

/-- The GVRET command identifiers (gvret.rs `GVRETProtocol`). -/
inductive GVRETProtocol
  | BuildCanFrame
  | TimeSync
  | DigInputs
  | AnaInputs
  | SetDigOut
  | SetupCanBus
  | GetCanBusParams
  | GetDevInfo
  | SetSwMode
  | KeepAlive
  | SetSysType
  | EchoCanFrame
  | GetNumBuses
  | GetExtBuses
  | SetExtBuses
  | BuildFdFrame
  | SetupFd
  | GetFd
deriving DecidableEq, Repr

/-- `From<u8> for GVRETProtocol` (gvret.rs): unknown values fall back to
`BuildCanFrame`. -/
def GVRETProtocol.fromByte (value : Nat) : GVRETProtocol :=
  match value with
  | 0 => .BuildCanFrame
  | 1 => .TimeSync
  | 2 => .DigInputs
  | 3 => .AnaInputs
  | 4 => .SetDigOut
  | 5 => .SetupCanBus
  | 6 => .GetCanBusParams
  | 7 => .GetDevInfo
  | 8 => .SetSwMode
  | 9 => .KeepAlive
  | 10 => .SetSysType
  | 11 => .EchoCanFrame
  | 12 => .GetNumBuses
  | 13 => .GetExtBuses
  | 14 => .SetExtBuses
  | 20 => .BuildFdFrame
  | 21 => .SetupFd
  | 22 => .GetFd
  | _ => .BuildCanFrame

/-- `get_canbus_params` from gvret.rs: baud is the fixed 500000. -/
def get_canbus_params (port2 : Bool) : List Nat :=
  [0xf1, 0x6, 0x1] ++ le4 500000 ++ (if port2 then [0x1] ++ le4 500000 else [])

/-- `get_num_busses` from gvret.rs. -/
def get_num_busses (busses : Nat) : List Nat := [0xf1, 0xc, busses]

/-- `get_dev_info` from gvret.rs. -/
def get_dev_info : List Nat := [0xf1, 0x07, 0x6a, 0x02, 0x20, 0, 0, 0]

/-- `get_timesync` from gvret.rs; the argument stands for
`now.elapsed().as_micros() as u32`. -/
def get_timesync (elapsedMicros : Nat) : List Nat := [0xf1, 0x01] ++ le4 elapsedMicros

/-- `get_keepalive` from gvret.rs. -/
def get_keepalive : List Nat := [0xf1, 0x9, 0xde, 0xad]

/-- `GVRETProtocol::process` from gvret.rs. `none` models the `todo!()`
panic of the unimplemented arms. -/
def GVRETProtocol.process : GVRETProtocol → Option (List Nat)
  | .BuildCanFrame => none
  | .TimeSync => none
  | .DigInputs => none
  | .AnaInputs => none
  | .SetDigOut => none
  | .SetupCanBus => none
  | .GetCanBusParams => none
  | .GetDevInfo => some get_dev_info
  | .SetSwMode => none
  | .KeepAlive => some get_keepalive
  | .SetSysType => none
  | .EchoCanFrame => none
  | .GetNumBuses => none
  | .GetExtBuses =>
      some [0xf1, 0x0d, 0, 0, 0, 0, 0, 0, 0, 0, 0, 0, 0, 0, 0, 0, 0]
  | .SetExtBuses => none
  | .BuildFdFrame => none
  | .SetupFd => none
  | .GetFd => none

/-- `build_can_frame` from gvret.rs: 6-byte header, 8-byte data buffer.
The identifier is the little-endian 32 bits of header bytes 0-3; an
identifier above `CAN_STD_ID_MASK` is XOR-ed with bit 31 and asserted to be
strictly below `CAN_EXT_ID_MASK`, otherwise it is asserted to be strictly
below `CAN_STD_ID_MASK`. `none` models a panic of either `assert!` or of
the `.unwrap()` on `DataFrame::new`. -/
def build_can_frame (frame_header : List Nat) (frame_data : List Nat) : Option Message :=
  let id0 := frame_header.getD 0 0 + frame_header.getD 1 0 * 256 +
    frame_header.getD 2 0 * 65536 + frame_header.getD 3 0 * 16777216
  let dlc := Nat.min (frame_header.getD 5 0 &&& 15) 8
  let bus := frame_header.getD 4 0 &&& 3
  if id0 > CAN_STD_ID_MASK then
    let id := id0 ^^^ 2 ^ 31
    if CAN_EXT_ID_MASK > id then
      match DataFrame.new id true (frame_data.take dlc) with
      | .ok f => some (.Data bus f)
      | .error _ => none
    else none
  else
    if CAN_STD_ID_MASK > id0 then
      match DataFrame.new id0 false (frame_data.take dlc) with
      | .ok f => some (.Data bus f)
      | .error _ => none
    else none

/-- The handshake mode (gvret.rs `Mode`). -/
inductive Mode
  | Init
  | Binary
  | Command
deriving DecidableEq, Repr

/-- `From<u8> for Mode` (gvret.rs): 0xE7 is Binary, 0xF1 is Command,
everything else defaults to Init. -/
def Mode.fromByte (value : Nat) : Mode :=
  if value = 0xe7 then .Binary
  else if value = 0xf1 then .Command
  else .Init

/-- One iteration of the outer byte loop of `decode_gvret_frames` (gvret.rs)
on a single read byte: the updated mode, and whether the byte triggers
command dispatch (`true` exactly when the loop proceeds past the two
`continue`s into the command read). -/
def gvret_step (mode : Mode) (b : Nat) : Mode × Bool :=
  let c := Mode.fromByte b
  if c = Mode.Binary ∧ mode = Mode.Init then (Mode.Binary, false)
  else if c ≠ Mode.Command then (mode, false)
  else (mode, true)

/-- The decoder result (gvret.rs `Gvret`). -/
inductive Gvret
  | Frame (m : Message)
  | Init (resp : List Nat)
deriving DecidableEq, Repr

/-- The command dispatch of `decode_gvret_frames` (gvret.rs) after the
command identifier byte `cmd` has been read, with the 6-byte header and
8-byte data buffer that a `BuildCanFrame` command goes on to read, the
configured bus count, and the elapsed-microseconds timestamp. `none` models
a panic (a `todo!()` arm of `process`, or an assert in `build_can_frame`). -/
def handle_command (cmd : Nat) (frame_header frame_data : List Nat)
    (num_busses : Nat) (elapsedMicros : Nat) : Option Gvret :=
  match GVRETProtocol.fromByte cmd with
  | .BuildCanFrame => (build_can_frame frame_header frame_data).map Gvret.Frame
  | .GetCanBusParams => some (.Init (get_canbus_params (decide (num_busses > 1))))
  | .TimeSync => some (.Init (get_timesync elapsedMicros))
  | .GetNumBuses => some (.Init (get_num_busses num_busses))
  | c => (c.process).map Gvret.Init

/-- The identifier bound implied by the extended-ID flag. -/
def idMask (e : Bool) : Nat := if e then CAN_EXT_ID_MASK else CAN_STD_ID_MASK

/-- A Message satisfying the data-model invariants of the spec: bus index 0
or 1, identifier within the mask implied by the extended-ID flag, payload or
declared length at most 8. -/
def Message.valid : Message → Prop
  | .Data bus f => bus ≤ 1 ∧ f.id ≤ idMask f.ext_id ∧ f.data.length ≤ 8
  | .Remote bus f => bus ≤ 1 ∧ f.id ≤ idMask f.ext_id ∧ f.dlc ≤ 8

instance (m : Message) : Decidable m.valid :=
  match m with
  | .Data _ _ => instDecidableAnd
  | .Remote _ _ => instDecidableAnd

/-- Replace the bus index of a Message, keeping the frame. -/
def Message.withBus : Message → Nat → Message
  | .Data _ f, b => .Data b f
  | .Remote _ f, b => .Remote b f

section Helpers

lemma validate_id_ok_iff (id : Nat) (e : Bool) :
    CanFrameError.validate_id id e = .ok () ↔ id ≤ idMask e := by
  unfold CanFrameError.validate_id idMask
  cases e <;> simp

lemma validate_id_err_iff (id : Nat) (e : Bool) :
    CanFrameError.validate_id id e = .error .IdTooLong ↔ idMask e < id := by
  unfold CanFrameError.validate_id idMask
  cases e <;> simp

lemma validate_id_not_data_err (id : Nat) (e : Bool) :
    CanFrameError.validate_id id e ≠ .error .DataTooLong := by
  unfold CanFrameError.validate_id
  cases e <;> simp <;> split <;> simp

lemma dataFrame_new_ok (id : Nat) (e : Bool) (data : List Nat)
    (h1 : id ≤ idMask e) (h2 : data.length ≤ 8) :
    DataFrame.new id e data = .ok ⟨id, e, data⟩ := by
  unfold DataFrame.new
  rw [(validate_id_ok_iff id e).2 h1]
  simp [CAN_MAX_DLC, Nat.not_lt.2 h2]

lemma remoteFrame_new_ok (id : Nat) (e : Bool) (dlc : Nat)
    (h1 : id ≤ idMask e) (h2 : dlc ≤ 8) :
    RemoteFrame.new id e dlc = .ok ⟨id, e, dlc⟩ := by
  unfold RemoteFrame.new
  rw [(validate_id_ok_iff id e).2 h1]
  simp [CAN_MAX_DLC, Nat.not_lt.2 h2]

lemma Message.new_data_ok (bus id : Nat) (e : Bool) (data : List Nat)
    (h1 : id ≤ idMask e) (h2 : data.length ≤ 8) :
    Message.new_data bus id e data = .ok (.Data bus ⟨id, e, data⟩) := by
  unfold Message.new_data
  rw [(validate_id_ok_iff id e).2 h1]
  simp [CAN_MAX_DLC, Nat.not_lt.2 h2]

lemma Message.new_remote_ok (bus id : Nat) (e : Bool) (dlc : Nat)
    (h1 : id ≤ idMask e) (h2 : dlc ≤ 8) :
    Message.new_remote bus id e dlc = .ok (.Remote bus ⟨id, e, dlc⟩) := by
  unfold Message.new_remote
  rw [(validate_id_ok_iff id e).2 h1, remoteFrame_new_ok id e dlc h1 h2]
  simp [CAN_MAX_DLC, Nat.not_lt.2 h2]

lemma and15_self : ∀ d, d < 16 → d &&& 15 = d := by decide

lemma byte0_data_ext : ∀ d, d < 16 → ∀ e : Bool,
    ((((if e then 128 else 0) ||| d) &&& 128) != 0) = e := by decide

lemma byte0_data_rtr : ∀ d, d < 16 → ∀ e : Bool,
    ((((if e then 128 else 0) ||| d) &&& 64) != 0) = false := by decide

lemma byte0_data_dlc : ∀ d, d < 16 → ∀ e : Bool,
    (((if e then 128 else 0) ||| d) &&& 15) = d := by decide

lemma byte0_rem_ext : ∀ d, d < 16 → ∀ e : Bool,
    (((((if e then 128 else 0) ||| d) ||| 64) &&& 128) != 0) = e := by decide

lemma byte0_rem_rtr : ∀ d, d < 16 → ∀ e : Bool,
    (((((if e then 128 else 0) ||| d) ||| 64) &&& 64) != 0) = true := by decide

lemma byte0_rem_dlc : ∀ d, d < 16 → ∀ e : Bool,
    ((((if e then 128 else 0) ||| d) ||| 64) &&& 15) = d := by decide

lemma be4_recompose (x : Nat) (h : x < 2 ^ 32) :
    (x / 16777216 % 256) * 16777216 + (x / 65536 % 256) * 65536 +
      (x / 256 % 256) * 256 + x % 256 = x := by omega

lemma id_lt_of_le_mask (id : Nat) (e : Bool) (h : id ≤ idMask e) : id < 2 ^ 32 := by
  unfold idMask CAN_EXT_ID_MASK CAN_STD_ID_MASK at h
  split at h <;> omega

lemma routeBuf_small (bus : Nat) (buf : List Nat) (h : bus ≤ 1) :
    routeBuf bus buf = some (.Can2 buf) := by
  interval_cases bus <;> rfl

lemma routeBuf_big (bus : Nat) (buf : List Nat) (h : 2 ≤ bus) :
    routeBuf bus buf = none := by
  match bus, h with
  | (k + 2), _ => rfl

lemma convert_to_canet_data (bus : Nat) (f : DataFrame) (hb : bus ≤ 1)
    (hd : f.data.length ≤ 8) :
    convert_to_canet (.Data bus f) = some (.Can2 (
      ((if f.ext_id then 128 else 0) ||| f.data.length) ::
      (be4 f.id ++ (f.data ++ List.replicate (8 - f.data.length) 0)))) := by
  unfold convert_to_canet
  simp only [Message.ext_id, Message.dlc, DataFrame.dlc]
  rw [Nat.mod_eq_of_lt (by omega : f.data.length < 256),
    and15_self f.data.length (by omega), if_pos hd]
  exact routeBuf_small bus _ hb

lemma convert_to_canet_remote (bus : Nat) (f : RemoteFrame) (hb : bus ≤ 1)
    (hd : f.dlc ≤ 8) :
    convert_to_canet (.Remote bus f) = some (.Can2 (
      (((if f.ext_id then 128 else 0) ||| f.dlc) ||| 64) ::
      (be4 f.id ++ List.replicate 8 0))) := by
  unfold convert_to_canet
  simp only [Message.ext_id, Message.dlc, RemoteFrame.dlc]
  rw [and15_self f.dlc (by omega)]
  exact routeBuf_small bus _ hb

lemma canetBuf_eq (m : Message) (c : CanetMsg) (h : convert_to_canet m = some c) :
    canetBuf m = c.buffer := by
  unfold canetBuf
  rw [h]

lemma dataFrame_new_ok_inv (id : Nat) (e : Bool) (d : List Nat) (f : DataFrame)
    (h : DataFrame.new id e d = .ok f) : f = ⟨id, e, d⟩ ∧ d.length ≤ 8 := by
  unfold DataFrame.new at h
  split at h
  · simp at h
  · split at h
    · simp at h
    · rename_i hlen
      simp only [Except.ok.injEq] at h
      exact ⟨h.symm, by unfold CAN_MAX_DLC at hlen; omega⟩

lemma build_can_frame_some (fh fd : List Nat) (m : Message)
    (hm : build_can_frame fh fd = some m) :
    ∃ f : DataFrame, m = .Data ((fh.getD 4 0) &&& 3) f ∧ f.data.length ≤ 8 := by
  simp only [build_can_frame] at hm
  split at hm
  · split at hm
    · split at hm
      · rename_i f hnew
        simp only [Option.some.injEq] at hm
        obtain ⟨rfl, hlen⟩ := dataFrame_new_ok_inv _ _ _ _ hnew
        refine ⟨_, hm.symm, ?_⟩
        calc (fd.take (Nat.min (fh.getD 5 0 &&& 15) 8)).length
            ≤ Nat.min (fh.getD 5 0 &&& 15) 8 := List.length_take_le _ _
          _ ≤ 8 := Nat.min_le_right _ _
      · simp at hm
    · simp at hm
  · split at hm
    · split at hm
      · rename_i f hnew
        simp only [Option.some.injEq] at hm
        obtain ⟨rfl, hlen⟩ := dataFrame_new_ok_inv _ _ _ _ hnew
        refine ⟨_, hm.symm, ?_⟩
        calc (fd.take (Nat.min (fh.getD 5 0 &&& 15) 8)).length
            ≤ Nat.min (fh.getD 5 0 &&& 15) 8 := List.length_take_le _ _
          _ ≤ 8 := Nat.min_le_right _ _
      · simp at hm
    · simp at hm

lemma convert_to_canet_data_big (bus : Nat) (f : DataFrame) (hb : 2 ≤ bus)
    (hd : f.data.length ≤ 8) : convert_to_canet (.Data bus f) = none := by
  simp only [convert_to_canet]
  rw [if_pos hd]
  exact routeBuf_big bus _ hb

end Helpers

/-- C1: for every valid Message (bus field 0 or 1, Data or Remote),
`convert_to_canet` clamps the routing bus index with `.max(1)` before the
destination match, so it always returns a `CanetMsg.Can2` (secondary-bus)
value and never `CanetMsg.Can1`, regardless of the Message's bus field. -/
theorem C1_convert_to_canet_always_can2 (m : Message) (hv : m.valid) :
    convert_to_canet m = some (CanetMsg.Can2 (canetBuf m)) := by
  cases m with
  | Data bus f =>
    obtain ⟨hb, _, hd⟩ := hv
    have h := convert_to_canet_data bus f hb hd
    rw [h, canetBuf_eq _ _ h]
    rfl
  | Remote bus f =>
    obtain ⟨hb, _, hd⟩ := hv
    have h := convert_to_canet_remote bus f hb hd
    rw [h, canetBuf_eq _ _ h]
    rfl

theorem C1_witness :
    convert_to_canet (Message.Data 0 ⟨1, false, [170, 187]⟩) =
      some (CanetMsg.Can2 (canetBuf (Message.Data 0 ⟨1, false, [170, 187]⟩))) :=
  C1_convert_to_canet_always_can2 _ (by decide)

/-- C2: the claim describes `build_can_frame` as total on 6-byte headers,
with the boundary raw identifier 0x7FF yielding a standard-ID frame. The
code instead panics there: its `assert!(CAN_STD_ID_MASK > id)` is strict, so
the header whose little-endian identifier is exactly 0x7FF produces no frame
(modelled as `none`), even though the repository's own `validate_id` (and
`Message::new_data`) accepts identifier 0x7FF as a standard ID. -/
theorem C2_build_boundary_std_diverges :
    build_can_frame [0xff, 0x07, 0, 0, 0, 0] (List.replicate 8 0) = none ∧
    Message.new_data 0 0x7ff false [] = .ok (.Data 0 ⟨0x7ff, false, []⟩) := by
  constructor
  · rfl
  · rfl

/-- C3: the claim says `build_can_frame` is panic-free and that the boundary
identifiers (0x7FF standard, 0x1FFFFFFF extended after bit-31 handling)
yield valid frames. The code's strict `assert!(CAN_EXT_ID_MASK > id)` panics
on the extended boundary: the header with little-endian raw value 0x9FFFFFFF
(bit 31 set, low bits 0x1FFFFFFF) produces no frame (modelled as `none`),
even though the repository's own `validate_id` accepts 0x1FFFFFFF as an
extended ID. -/
theorem C3_build_boundary_ext_diverges :
    build_can_frame [0xff, 0xff, 0xff, 0x9f, 0, 0] (List.replicate 8 0) = none ∧
    Message.new_data 0 0x1fffffff true [] = .ok (.Data 0 ⟨0x1fffffff, true, []⟩) := by
  constructor
  · rfl
  · rfl

/-- C6: the handshake transitions Init to Binary exactly when byte 0xE7 is
read in mode Init; the transition is one-way and idempotent: in mode Binary
every byte other than the command prefix 0xF1 leaves the mode unchanged and
triggers no command dispatch, the mode never returns to Init, and the only
mode change the step ever performs is Init to Binary on 0xE7. -/
theorem C6_handshake (mode : Mode) (b : Nat) :
    ((gvret_step Mode.Init b).1 = Mode.Binary ↔ b = 0xe7) ∧
    (gvret_step Mode.Binary b).1 = Mode.Binary ∧
    (b ≠ 0xf1 → gvret_step Mode.Binary b = (Mode.Binary, false)) ∧
    ((gvret_step mode b).1 = Mode.Init → mode = Mode.Init) ∧
    ((gvret_step mode b).1 ≠ mode →
      mode = Mode.Init ∧ b = 0xe7 ∧ (gvret_step mode b).1 = Mode.Binary) := by
  unfold gvret_step Mode.fromByte
  by_cases h7 : b = 0xe7 <;> by_cases h1 : b = 0xf1 <;> cases mode <;> simp_all

theorem C6_witness : gvret_step Mode.Binary 0xe7 = (Mode.Binary, false) :=
  (C6_handshake Mode.Binary 0xe7).2.2.1 (by decide)

/-- C8: the fixed command responses are exactly the listed byte strings:
GetDevInfo, KeepAlive, GetExtBuses (15 zero bytes), GetNumBuses with the
configured bus-count byte, and GetCanBusParams with the little-endian baud
500000 repeated for the second bus exactly when more than one bus is
configured. -/
theorem C8_fixed_responses (nb t : Nat) (p2 : Bool) (fh fd : List Nat) :
    get_dev_info = [0xf1, 0x07, 0x6a, 0x02, 0x20, 0, 0, 0] ∧
    get_keepalive = [0xf1, 0x09, 0xde, 0xad] ∧
    GVRETProtocol.process .GetExtBuses = some ([0xf1, 0x0d] ++ List.replicate 15 0) ∧
    get_num_busses nb = [0xf1, 0x0c, nb] ∧
    get_canbus_params p2 = [0xf1, 0x06, 0x01, 0x20, 0xa1, 0x07, 0x00] ++
      (if p2 then [0x01, 0x20, 0xa1, 0x07, 0x00] else []) ∧
    handle_command 6 fh fd nb t =
      some (.Init ([0xf1, 0x06, 0x01, 0x20, 0xa1, 0x07, 0x00] ++
        (if 1 < nb then [0x01, 0x20, 0xa1, 0x07, 0x00] else []))) := by
  refine ⟨rfl, rfl, rfl, rfl, ?_, ?_⟩
  · cases p2 <;> rfl
  · show some (Gvret.Init (get_canbus_params (decide (nb > 1)))) = _
    by_cases h : 1 < nb <;> simp [get_canbus_params, le4, h]

/-- C9: for every reserved command identifier in
{2, 3, 4, 5, 8, 10, 11, 14, 20, 21, 22}, the 0xF1 prefix always triggers
command dispatch (whatever the handshake mode), the dispatched command's
`process` arm is a `todo!()` (modelled as `none`), and the whole command
handling step therefore panics instead of producing a response buffer or a
frame. -/
theorem C9_reserved_commands (b : Nat)
    (hb : b ∈ ([2, 3, 4, 5, 8, 10, 11, 14, 20, 21, 22] : List Nat))
    (mode : Mode) (fh fd : List Nat) (nb t : Nat) :
    (gvret_step mode 0xf1).2 = true ∧
    GVRETProtocol.process (GVRETProtocol.fromByte b) = none ∧
    handle_command b fh fd nb t = none := by
  refine ⟨?_, ?_, ?_⟩
  · cases mode <;> rfl
  · fin_cases hb <;> rfl
  · fin_cases hb <;> rfl

theorem C9_witness :
    GVRETProtocol.process (GVRETProtocol.fromByte 2) = none ∧
    handle_command 2 [] [] 1 0 = none :=
  ⟨(C9_reserved_commands 2 (by decide) Mode.Init [] [] 1 0).2.1,
   (C9_reserved_commands 2 (by decide) Mode.Init [] [] 1 0).2.2⟩

/-- C4: `Message::new_data`, `Message::new_remote`, `DataFrame::new` and
`RemoteFrame::new` succeed exactly when the identifier is at most 0x7FF for
a standard ID (0x1FFFFFFF for an extended ID) and the payload length or dlc
is at most 8; otherwise they return `IdTooLong` exactly when the identifier
is out of range and `DataTooLong` exactly when the identifier is in range
but the length is 9 or more, constructing no frame at all. -/
theorem C4_construction_iff (bus id dlc : Nat) (e : Bool) (data : List Nat) :
    (exceptIsOk (DataFrame.new id e data) = true ↔
      id ≤ idMask e ∧ data.length ≤ 8) ∧
    (exceptIsOk (RemoteFrame.new id e dlc) = true ↔ id ≤ idMask e ∧ dlc ≤ 8) ∧
    (exceptIsOk (Message.new_data bus id e data) = true ↔
      id ≤ idMask e ∧ data.length ≤ 8) ∧
    (exceptIsOk (Message.new_remote bus id e dlc) = true ↔
      id ≤ idMask e ∧ dlc ≤ 8) ∧
    (DataFrame.new id e data = .error .IdTooLong ↔ idMask e < id) ∧
    (RemoteFrame.new id e dlc = .error .IdTooLong ↔ idMask e < id) ∧
    (Message.new_data bus id e data = .error .IdTooLong ↔ idMask e < id) ∧
    (Message.new_remote bus id e dlc = .error .IdTooLong ↔ idMask e < id) ∧
    (DataFrame.new id e data = .error .DataTooLong ↔
      id ≤ idMask e ∧ 8 < data.length) ∧
    (RemoteFrame.new id e dlc = .error .DataTooLong ↔ id ≤ idMask e ∧ 8 < dlc) ∧
    (Message.new_data bus id e data = .error .DataTooLong ↔
      id ≤ idMask e ∧ 8 < data.length) ∧
    (Message.new_remote bus id e dlc = .error .DataTooLong ↔
      id ≤ idMask e ∧ 8 < dlc) := by
  unfold DataFrame.new Message.new_data Message.new_remote RemoteFrame.new
  by_cases hid : id ≤ idMask e
  · rw [(validate_id_ok_iff id e).2 hid]
    split_ifs <;> simp_all [exceptIsOk, CAN_MAX_DLC]
  · rw [(validate_id_err_iff id e).2 (by omega)]
    simp_all [exceptIsOk]

/-- C5: for every valid Message (Data or Remote, identifier within its mask,
dlc or payload length at most 8), encoding with `convert_to_canet` into the
13-byte adapter wire buffer and decoding that buffer with
`decode_canet_frame` neither panics on the payload slice nor fails
construction, and yields a Message equal to the original in id, ext_id, dlc
and payload; the bus field is excluded, being supplied externally on decode
(`Message.withBus`). -/
theorem C5_canet_roundtrip (m : Message) (b2 : Nat) (hv : m.valid) :
    (convert_to_canet m).isSome = true ∧
    decode_canet_frame (canetBuf m) b2 = some (some (m.withBus b2)) := by
  cases m with
  | Data bus f =>
    obtain ⟨hb, hid, hd⟩ := hv
    have henc := convert_to_canet_data bus f hb hd
    refine ⟨by rw [henc]; rfl, ?_⟩
    rw [canetBuf_eq _ _ henc]
    unfold decode_canet_frame be4 CanetMsg.buffer
    simp only [List.cons_append, List.nil_append, List.getD_cons_zero,
      List.getD_cons_succ, List.drop_succ_cons, List.drop_zero]
    rw [byte0_data_rtr _ (by omega) f.ext_id, byte0_data_ext _ (by omega) f.ext_id,
      byte0_data_dlc _ (by omega) f.ext_id]
    simp only [Bool.false_eq_true, if_false]
    rw [if_pos (by omega : 5 + f.data.length ≤ 13), List.take_left,
      be4_recompose f.id (id_lt_of_le_mask _ _ hid),
      Message.new_data_ok b2 f.id f.ext_id f.data hid hd]
    rfl
  | Remote bus f =>
    obtain ⟨hb, hid, hd⟩ := hv
    have henc := convert_to_canet_remote bus f hb hd
    refine ⟨by rw [henc]; rfl, ?_⟩
    rw [canetBuf_eq _ _ henc]
    unfold decode_canet_frame be4 CanetMsg.buffer
    simp only [List.cons_append, List.nil_append, List.getD_cons_zero,
      List.getD_cons_succ, List.drop_succ_cons, List.drop_zero]
    rw [byte0_rem_rtr _ (by omega) f.ext_id, byte0_rem_ext _ (by omega) f.ext_id,
      byte0_rem_dlc _ (by omega) f.ext_id]
    simp only [if_true]
    rw [be4_recompose f.id (id_lt_of_le_mask _ _ hid),
      Message.new_remote_ok b2 f.id f.ext_id f.dlc hid hd]
    rfl

theorem C5_witness :
    (convert_to_canet (Message.Data 0 ⟨1, false, [170, 187]⟩)).isSome = true ∧
    decode_canet_frame (canetBuf (Message.Data 0 ⟨1, false, [170, 187]⟩)) 0 =
      some (some ((Message.Data 0 ⟨1, false, [170, 187]⟩).withBus 0)) :=
  C5_canet_roundtrip _ 0 (by decide)

/-- C7: `convert_to_gvret` returns `none` exactly when the Message is a
Remote frame (no payload) or its dlc exceeds 8; for a Data Message with
payload length at most 8 and any timestamp it returns the buffer
`0xF1, 0x00`, the 4-byte little-endian timestamp, the 4-byte little-endian
identifier (bit 31 OR-ed in exactly when the extended-ID flag is set — and
for in-range identifiers that OR does set bit 31, which was clear before),
one byte `(bus << 4) | (dlc & 0xF)`, the payload bytes, and a trailing zero
byte. -/
theorem C7_convert_to_gvret (m : Message) (bus t x : Nat) (f : DataFrame) :
    (convert_to_gvret m t = none ↔ (m.data = none ∨ 8 < m.dlc)) ∧
    (f.data.length ≤ 8 →
      convert_to_gvret (.Data bus f) t =
        some ([0xf1, 0x00] ++ le4 t ++
          le4 (if f.ext_id then f.id ||| 2 ^ 31 else f.id) ++
          [((bus * 16) % 256) ||| f.data.length] ++ f.data ++ [0])) ∧
    (x < 2 ^ 31 → (x ||| 2 ^ 31).testBit 31 = true ∧ x.testBit 31 = false) := by
  refine ⟨?_, ?_, ?_⟩
  · cases m with
    | Data b g =>
      by_cases h : 8 < g.dlc <;>
        simp [convert_to_gvret, Message.data, Message.dlc, h]
    | Remote b g => simp [convert_to_gvret, Message.data]
  · intro hd
    have hfd : f.dlc = f.data.length := by
      unfold DataFrame.dlc
      omega
    unfold convert_to_gvret
    simp only [Message.data, Message.dlc, Message.ext_id, Message.id,
      Message.bus, hfd]
    rw [if_neg (by omega), and15_self f.data.length (by omega)]
  · intro hx
    rw [Nat.testBit_lor, Nat.testBit_lt_two_pow hx, Nat.testBit_two_pow_self]
    simp

theorem C7_witness :
    convert_to_gvret (Message.Data 0 ⟨1, false, [170]⟩) 0 =
      some [0xf1, 0x00, 0, 0, 0, 0, 1, 0, 0, 0, 1, 170, 0] := by
  have h := (C7_convert_to_gvret (Message.Data 0 ⟨1, false, [170]⟩) 0 0 0
    ⟨1, false, [170]⟩).2.1 (by decide)
  simpa [le4] using h

/-- C10 counterexample: the claim asserts that every header whose byte 4 has
low two bits 2 or 3 makes `build_can_frame` produce a Message; but the
header `[0xFF, 0x07, 0, 0, 2, 0]` (byte 4 low bits = 2, little-endian
identifier 0x7FF) makes `build_can_frame` fail its identifier assert and
panic, producing no Message at all. -/
theorem C10_counterexample :
    (List.getD [0xff, 0x07, 0, 0, 2, 0] 4 0) &&& 3 = 2 ∧
    build_can_frame [0xff, 0x07, 0, 0, 2, 0] (List.replicate 8 0) = none := by
  constructor
  · rfl
  · rfl

/-- C10 (amended): for every header whose byte 4 has low two bits 2 or 3 and
on which `build_can_frame` completes without panicking (returns a Message),
that Message's bus field is 2 or 3, and `convert_to_canet` on it reaches the
match arm after the `.max(1)` clamp that only covers bus values 0 and 1, the
arm guarded by `unreachable!()`, and panics (modelled as `none`). -/
theorem C10_bus23_reaches_unreachable (fh fd : List Nat) (m : Message)
    (hb : (fh.getD 4 0) &&& 3 = 2 ∨ (fh.getD 4 0) &&& 3 = 3)
    (hm : build_can_frame fh fd = some m) :
    (m.bus = 2 ∨ m.bus = 3) ∧ convert_to_canet m = none := by
  obtain ⟨f, rfl, hlen⟩ := build_can_frame_some fh fd m hm
  refine ⟨by simpa [Message.bus] using hb, ?_⟩
  exact convert_to_canet_data_big _ f (by omega) hlen

theorem C10_witness :
    ((Message.Data 2 ⟨1, false, []⟩).bus = 2 ∨ (Message.Data 2 ⟨1, false, []⟩).bus = 3) ∧
    convert_to_canet (Message.Data 2 ⟨1, false, []⟩) = none :=
  C10_bus23_reaches_unreachable [1, 0, 0, 0, 2, 0] (List.replicate 8 0) _
    (by decide) (by decide)

end GvretCanet
